import Mathlib

/-!
Verification of the hand-controller configuration headers
(`src/_esp32/main/config.h`, `src/_esp32/main/secrets.example.h`) and of the
command-dispatcher design the specification derives from them.  The constants
below are transcribed from `config.h`; the dispatcher operations are modelled
from the specification, which states that the dispatcher code itself is not
part of the supplied source.
-/

namespace HandController

/-! ## Constants from `src/_esp32/main/config.h` -/

/-- `const uint16_t TCP_PORT = 1234;` -/
def TCP_PORT : Nat := 1234

/-- `const int LED_PIN = 2;` -/
def LED_PIN : Int := 2

/-- `const int MOTOR_PIN_A = 16;` -/
def MOTOR_PIN_A : Int := 16

/-- `const int MOTOR_PIN_B = 17;` -/
def MOTOR_PIN_B : Int := 17

/-- `const int DIRECTION_PIN_LEFT = 4;` -/
def DIRECTION_PIN_LEFT : Int := 4

/-- `const int DIRECTION_PIN_RIGHT = 5;` -/
def DIRECTION_PIN_RIGHT : Int := 5

/-- `const unsigned long SERIAL_BAUD = 115200;` -/
def SERIAL_BAUD : Nat := 115200

/-- `const char* ACTION_ACCELERATE = "001";` -/
def ACTION_ACCELERATE : String := "001"

/-- `const char* ACTION_STOP = "000";` -/
def ACTION_STOP : String := "000"

/-- `const char* ACTION_LEFT = "101";` -/
def ACTION_LEFT : String := "101"

/-- `const char* ACTION_RIGHT = "110";` -/
def ACTION_RIGHT : String := "110"

/-- `const char* ACTION_STRAIGHT = "111";` -/
def ACTION_STRAIGHT : String := "111"

/-- The closed set of valid action codes, in the order of the spec's §3. -/
def validCodes : List String :=
  [ACTION_STOP, ACTION_ACCELERATE, ACTION_LEFT, ACTION_RIGHT, ACTION_STRAIGHT]

/-! ## File-level model of the two headers

Each header is modelled as the list of C constant declarations it contains,
in source order.  `isConst` records whether the declaration carries the
`const` qualifier; `value` is the initializer (string literals without their
quotes). -/

/-- One top-level C constant declaration of a header file. -/
structure CDecl where
  isConst : Bool
  typeName : String
  name : String
  value : String
deriving DecidableEq, Repr

/-- The declarations of `src/_esp32/main/config.h`, in source order. -/
def config_h : List CDecl :=
  [⟨true, "uint16_t", "TCP_PORT", "1234"⟩,
   ⟨true, "int", "LED_PIN", "2"⟩,
   ⟨true, "int", "MOTOR_PIN_A", "16"⟩,
   ⟨true, "int", "MOTOR_PIN_B", "17"⟩,
   ⟨true, "int", "DIRECTION_PIN_LEFT", "4"⟩,
   ⟨true, "int", "DIRECTION_PIN_RIGHT", "5"⟩,
   ⟨true, "unsigned long", "SERIAL_BAUD", "115200"⟩,
   ⟨true, "char*", "ACTION_ACCELERATE", "001"⟩,
   ⟨true, "char*", "ACTION_STOP", "000"⟩,
   ⟨true, "char*", "ACTION_LEFT", "101"⟩,
   ⟨true, "char*", "ACTION_RIGHT", "110"⟩,
   ⟨true, "char*", "ACTION_STRAIGHT", "111"⟩]

/-- The declarations of `src/_esp32/main/secrets.example.h`, in source order. -/
def secrets_example_h : List CDecl :=
  [⟨true, "char*", "WIFI_SSID", "your_wifi_ssid"⟩,
   ⟨true, "char*", "WIFI_PASSWORD", "your_wifi_password"⟩,
   ⟨true, "char*", "MDNS_NAME", "esp32"⟩]

/-- The two source files of the repository. -/
def sourceFiles : List (List CDecl) := [config_h, secrets_example_h]

/-- The names of the configuration-surface constants (spec §6): port, GPIO
pin assignments, serial baud rate, and the action codes. -/
def configSurfaceNames : List String :=
  ["TCP_PORT", "LED_PIN", "MOTOR_PIN_A", "MOTOR_PIN_B",
   "DIRECTION_PIN_LEFT", "DIRECTION_PIN_RIGHT", "SERIAL_BAUD",
   "ACTION_ACCELERATE", "ACTION_STOP", "ACTION_LEFT", "ACTION_RIGHT",
   "ACTION_STRAIGHT"]

/-- A file defines the motor-control pins when it declares `MOTOR_PIN_A` and
`MOTOR_PIN_B`. -/
def definesMotorPins (f : List CDecl) : Bool :=
  f.any (fun d => d.name = "MOTOR_PIN_A") && f.any (fun d => d.name = "MOTOR_PIN_B")

/-- A file is a configuration variant when it declares at least one
configuration-surface constant (spec §6 separates the configuration surface
from the credentials surface). -/
def isConfigVariant (f : List CDecl) : Bool :=
  f.any (fun d => d.name ∈ configSurfaceNames)

/-! ## The dispatcher, modelled from the spec

Modelled from the spec: the Command Dispatcher (§2, §4.1) — its TCP server,
decode and pin-driving code — is not present under `src/`; only the constants
it consumes are.  The definitions below follow the spec's words. -/

/-- Modelled from the spec: the decoded semantic command (§3 Action). -/
inductive Action where
  | Stop
  | Accelerate
  | SteerLeft
  | SteerRight
  | GoStraight
deriving DecidableEq, Repr

/-- Modelled from the spec: the error taxonomy of §7. -/
inductive DispatchError where
  | BindError
  | ConnectionClosed
  | InvalidCode
deriving DecidableEq, Repr

/-- Modelled from the spec: decoding a 3-character code into an Action
(§3): exactly one Action per valid ActionCode, rejected (never defaulted)
elsewhere.  Comparison is against the `config.h` action-code constants. -/
def decode (s : String) : Except DispatchError Action :=
  if s = ACTION_STOP then .ok .Stop
  else if s = ACTION_ACCELERATE then .ok .Accelerate
  else if s = ACTION_LEFT then .ok .SteerLeft
  else if s = ACTION_RIGHT then .ok .SteerRight
  else if s = ACTION_STRAIGHT then .ok .GoStraight
  else .error .InvalidCode

/-- Modelled from the spec: the physical output levels (§3 OutputState):
motor driver pins A/B, direction pins, LED. -/
structure OutputState where
  motorA : Bool
  motorB : Bool
  dirLeft : Bool
  dirRight : Bool
  led : Bool
deriving DecidableEq, Repr

/-- Modelled from the spec: `applyAction` sets output pins per the fixed
Action → OutputState table of §4.1.  The "—" entries of the steering rows
leave the motor pins unchanged, per the fallback rule stated below the
table. -/
def applyAction (prev : OutputState) : Action → OutputState
  | .Stop => ⟨false, false, false, false, false⟩
  | .Accelerate => ⟨true, false, false, false, true⟩
  | .SteerLeft => { prev with dirLeft := true, dirRight := false, led := true }
  | .SteerRight => { prev with dirLeft := false, dirRight := true, led := true }
  | .GoStraight => { prev with dirLeft := false, dirRight := false, led := true }

/-- Modelled from the spec: `readNextCode` (§4.1) reads exactly 3 bytes from
the connection's byte stream, failing with `ConnectionClosed` when the peer
disconnects mid-read (fewer than 3 bytes remain) and with `InvalidCode` when
the 3 bytes match no valid code.  The connection's stream is the list of
bytes the peer delivers before closing; the second component is the
unconsumed remainder. -/
def readNextCode (conn : List Char) : Except DispatchError Action × List Char :=
  match conn with
  | a :: b :: c :: rest => (decode ⟨[a, b, c]⟩, rest)
  | _ => (.error .ConnectionClosed, conn)

/-- Modelled from the spec: the dispatcher's state — awaiting a client, or
holding the single active connection (§3 Connection: at most one at a
time).  Both states carry the current output-pin levels. -/
inductive DispatchState where
  | accepting (out : OutputState)
  | active (conn : List Char) (out : OutputState)
deriving DecidableEq, Repr

/-- Modelled from the spec: the external events driving the control loop —
a client attempting to connect with a byte stream, or the loop taking its
next blocking read step. -/
inductive Event where
  | connect (bytes : List Char)
  | tick
deriving DecidableEq, Repr

/-- Modelled from the spec: one step of the control loop (§4.1): while
accepting, a connect is taken; while a connection is active a second
connect attempt is rejected; a tick runs `readNextCode`, then on success
applies the action, on `InvalidCode` logs and continues, and on
`ConnectionClosed` returns to accepting. -/
def step : DispatchState → Event → DispatchState
  | .accepting out, .connect bs => .active bs out
  | .accepting out, .tick => .accepting out
  | .active conn out, .connect _ => .active conn out
  | .active conn out, .tick =>
    match readNextCode conn with
    | (.ok a, rest) => .active rest (applyAction out a)
    | (.error .InvalidCode, rest) => .active rest out
    | (.error _, _) => .accepting out

/-- Modelled from the spec: the immutable configuration value (§6, design
note of §9) constructed once at startup. -/
structure Config where
  tcpPort : Nat
  ledPin : Int
  motorPinA : Int
  motorPinB : Int
  dirPinLeft : Int
  dirPinRight : Int
  serialBaud : Nat
deriving DecidableEq, Repr

/-- Modelled from the spec: the configuration read once at startup from the
`config.h` constants. -/
def startupConfig : Config :=
  ⟨TCP_PORT, LED_PIN, MOTOR_PIN_A, MOTOR_PIN_B,
   DIRECTION_PIN_LEFT, DIRECTION_PIN_RIGHT, SERIAL_BAUD⟩

/-- The full system state: the configuration plus the dispatcher state. -/
structure SysState where
  cfg : Config
  disp : DispatchState
deriving DecidableEq, Repr

/-- All outputs low before any command is processed. -/
def initialOutput : OutputState := ⟨false, false, false, false, false⟩

/-- Modelled from the spec: `start` (§4.1) binds the listening socket,
failing with `BindError` when the port is unavailable, and otherwise yields
the initial system state holding the given configuration. -/
def start (cfg : Config) (portFree : Bool) : Except DispatchError SysState :=
  if portFree then .ok ⟨cfg, .accepting initialOutput⟩
  else .error .BindError

/-- One system step: the dispatcher moves, the configuration is carried
along untouched. -/
def stepSys (s : SysState) (e : Event) : SysState :=
  ⟨s.cfg, step s.disp e⟩

/-- The pin-level writes an action commands, as (pin, level) pairs read off
the OutputState it produces (§4.1's table realized on the `config.h`
pins). -/
def pinWrites (prev : OutputState) (a : Action) : List (Int × Bool) :=
  [(MOTOR_PIN_A, (applyAction prev a).motorA),
   (MOTOR_PIN_B, (applyAction prev a).motorB),
   (DIRECTION_PIN_LEFT, (applyAction prev a).dirLeft),
   (DIRECTION_PIN_RIGHT, (applyAction prev a).dirRight),
   (LED_PIN, (applyAction prev a).led)]

/-- The five configured output pins. -/
def outputPins : List Int :=
  [LED_PIN, MOTOR_PIN_A, MOTOR_PIN_B, DIRECTION_PIN_LEFT, DIRECTION_PIN_RIGHT]

/-! ## Helper lemmas -/

/-- Successful decoding happens exactly at the five valid codes, each
paired with its Action. -/
theorem decode_ok_iff (s : String) (a : Action) :
    decode s = .ok a ↔
      (s = "000" ∧ a = .Stop) ∨ (s = "001" ∧ a = .Accelerate) ∨
      (s = "101" ∧ a = .SteerLeft) ∨ (s = "110" ∧ a = .SteerRight) ∨
      (s = "111" ∧ a = .GoStraight) := by
  unfold decode ACTION_STOP ACTION_ACCELERATE ACTION_LEFT ACTION_RIGHT ACTION_STRAIGHT
  split_ifs with h1 h2 h3 h4 h5 <;> subst_vars <;> simp_all <;> exact eq_comm

/-- A string outside the valid-code set decodes to `InvalidCode`. -/
theorem decode_notin (s : String) (h : s ∉ validCodes) :
    decode s = .error .InvalidCode := by
  unfold decode
  split_ifs with h1 h2 h3 h4 h5 <;>
    simp_all [validCodes, ACTION_STOP, ACTION_ACCELERATE, ACTION_LEFT,
      ACTION_RIGHT, ACTION_STRAIGHT]

/-! ## Claims -/

/-- C1: for every valid ActionCode, `applyAction (decode code)` produces
exactly the OutputState of §4.1's table: "000" (Stop) all outputs off;
"001" (Accelerate) motor A on, motor B off, both directions off, LED on;
"101" (SteerLeft) dir-left on, dir-right off, LED on; "110" (SteerRight)
dir-left off, dir-right on, LED on; "111" (GoStraight) both directions
off, LED on — and for the three steering codes the motor pins are left
unchanged. -/
theorem applyAction_matches_table (prev : OutputState) :
    (decode "000" = .ok .Stop ∧
      applyAction prev .Stop = ⟨false, false, false, false, false⟩) ∧
    (decode "001" = .ok .Accelerate ∧
      applyAction prev .Accelerate = ⟨true, false, false, false, true⟩) ∧
    (decode "101" = .ok .SteerLeft ∧
      (applyAction prev .SteerLeft).dirLeft = true ∧
      (applyAction prev .SteerLeft).dirRight = false ∧
      (applyAction prev .SteerLeft).led = true ∧
      (applyAction prev .SteerLeft).motorA = prev.motorA ∧
      (applyAction prev .SteerLeft).motorB = prev.motorB) ∧
    (decode "110" = .ok .SteerRight ∧
      (applyAction prev .SteerRight).dirLeft = false ∧
      (applyAction prev .SteerRight).dirRight = true ∧
      (applyAction prev .SteerRight).led = true ∧
      (applyAction prev .SteerRight).motorA = prev.motorA ∧
      (applyAction prev .SteerRight).motorB = prev.motorB) ∧
    (decode "111" = .ok .GoStraight ∧
      (applyAction prev .GoStraight).dirLeft = false ∧
      (applyAction prev .GoStraight).dirRight = false ∧
      (applyAction prev .GoStraight).led = true ∧
      (applyAction prev .GoStraight).motorA = prev.motorA ∧
      (applyAction prev .GoStraight).motorB = prev.motorB) :=
  ⟨⟨rfl, rfl⟩, ⟨rfl, rfl⟩,
   ⟨rfl, rfl, rfl, rfl, rfl, rfl⟩,
   ⟨rfl, rfl, rfl, rfl, rfl, rfl⟩,
   ⟨rfl, rfl, rfl, rfl, rfl, rfl⟩⟩

/-- Witness for C1 at the all-off prior state: the Stop row holds. -/
theorem applyAction_matches_table_witness :
    applyAction initialOutput .Stop = ⟨false, false, false, false, false⟩ :=
  (applyAction_matches_table initialOutput).1.2

/-- C2: every string outside {"000","001","101","110","111"} fails to
decode with `InvalidCode`, and a control-loop step reading such a 3-byte
code leaves the OutputState untouched (never silently defaulted or
applied). -/
theorem invalid_code_rejected (s : String) (h : s ∉ validCodes) :
    decode s = .error .InvalidCode ∧
    ∀ (a b c : Char) (rest : List Char) (out : OutputState),
      String.mk [a, b, c] = s →
      step (.active (a :: b :: c :: rest) out) .tick = .active rest out := by
  have hd : decode s = .error .InvalidCode := decode_notin s h
  refine ⟨hd, ?_⟩
  intro a b c rest out hmk
  simp [step, readNextCode, hmk, hd]

/-- Witness for C2 at the concrete invalid code "999". -/
theorem invalid_code_rejected_witness :
    decode "999" = .error .InvalidCode ∧
    step (.active ['9', '9', '9'] initialOutput) .tick =
      .active [] initialOutput :=
  ⟨(invalid_code_rejected "999" (by decide)).1,
   (invalid_code_rejected "999" (by decide)).2 '9' '9' '9' [] initialOutput
     (by decide)⟩

/-- C3: the configured action codes are exactly accelerate="001",
stop="000", left="101", right="110", straight="111"; decode is total on
this set, hits every Action exactly once (one-to-one and onto), and
errors on every other string. -/
theorem action_codes_bijective :
    (ACTION_ACCELERATE = "001" ∧ ACTION_STOP = "000" ∧ ACTION_LEFT = "101" ∧
      ACTION_RIGHT = "110" ∧ ACTION_STRAIGHT = "111" ∧
      validCodes = ["000", "001", "101", "110", "111"]) ∧
    (∀ c ∈ validCodes, ∃ a : Action, decode c = .ok a) ∧
    (∀ a : Action, ∃ c ∈ validCodes, decode c = .ok a) ∧
    (∀ (c₁ c₂ : String) (a : Action),
      decode c₁ = .ok a → decode c₂ = .ok a → c₁ = c₂) ∧
    (∀ c : String, c ∉ validCodes → decode c = .error .InvalidCode) := by
  refine ⟨by decide, ?_, ?_, ?_, fun c h => decode_notin c h⟩
  · intro c hc
    simp [validCodes, ACTION_STOP, ACTION_ACCELERATE, ACTION_LEFT,
      ACTION_RIGHT, ACTION_STRAIGHT] at hc
    rcases hc with rfl | rfl | rfl | rfl | rfl
    · exact ⟨.Stop, rfl⟩
    · exact ⟨.Accelerate, rfl⟩
    · exact ⟨.SteerLeft, rfl⟩
    · exact ⟨.SteerRight, rfl⟩
    · exact ⟨.GoStraight, rfl⟩
  · intro a
    cases a
    · exact ⟨"000", by decide, rfl⟩
    · exact ⟨"001", by decide, rfl⟩
    · exact ⟨"101", by decide, rfl⟩
    · exact ⟨"110", by decide, rfl⟩
    · exact ⟨"111", by decide, rfl⟩
  · intro c₁ c₂ a h₁ h₂
    rw [decode_ok_iff] at h₁ h₂
    rcases h₁ with ⟨rfl, rfl⟩ | ⟨rfl, rfl⟩ | ⟨rfl, rfl⟩ | ⟨rfl, rfl⟩ | ⟨rfl, rfl⟩ <;>
      rcases h₂ with ⟨rfl, h⟩ | ⟨rfl, h⟩ | ⟨rfl, h⟩ | ⟨rfl, h⟩ | ⟨rfl, h⟩ <;>
      simp_all

/-- Witness for C3: totality at "101", injectivity at ("000","000",Stop),
error at "abc". -/
theorem action_codes_bijective_witness :
    (∃ a : Action, decode "101" = .ok a) ∧
    ("000" : String) = "000" ∧
    decode "abc" = .error .InvalidCode :=
  ⟨action_codes_bijective.2.1 "101" (by decide),
   action_codes_bijective.2.2.2.1 "000" "000" .Stop rfl rfl,
   action_codes_bijective.2.2.2.2 "abc" (by decide)⟩

/-- C7: decoding "001" then "000" drives motor A on then off and the LED
on then off, and applying the decoded "000" twice yields the same
OutputState as applying it once. -/
theorem stop_sequential_idempotent :
    decode "001" = .ok .Accelerate ∧ decode "000" = .ok .Stop ∧
    ∀ s : OutputState,
      (applyAction s .Accelerate).motorA = true ∧
      (applyAction s .Accelerate).led = true ∧
      (applyAction (applyAction s .Accelerate) .Stop).motorA = false ∧
      (applyAction (applyAction s .Accelerate) .Stop).led = false ∧
      applyAction (applyAction s .Stop) .Stop = applyAction s .Stop :=
  ⟨rfl, rfl, fun _ => ⟨rfl, rfl, rfl, rfl, rfl⟩⟩

/-- Witness for C7 at the all-off prior state: replaying the decoded
"000" is idempotent there. -/
theorem stop_sequential_idempotent_witness :
    applyAction (applyAction initialOutput .Stop) .Stop =
      applyAction initialOutput .Stop :=
  ((stop_sequential_idempotent.2.2 initialOutput).2.2.2.2)

/-- The number of active connections a dispatcher state holds. -/
def activeConns : DispatchState → Nat
  | .accepting _ => 0
  | .active _ _ => 1

/-- C4: `readNextCode` consumes exactly 3 bytes per call, and a peer that
closes after delivering only 1 or 2 bytes yields `ConnectionClosed`,
never `InvalidCode`. -/
theorem readNextCode_exactly_three :
    (∀ conn : List Char, 3 ≤ conn.length →
      (readNextCode conn).2 = conn.drop 3) ∧
    (∀ conn : List Char, conn.length = 1 ∨ conn.length = 2 →
      (readNextCode conn).1 = .error .ConnectionClosed ∧
      (readNextCode conn).1 ≠ .error .InvalidCode) := by
  constructor
  · intro conn h
    rcases conn with _ | ⟨a, _ | ⟨b, _ | ⟨c, rest⟩⟩⟩ <;> simp_all [readNextCode]
  · intro conn h
    rcases conn with _ | ⟨a, _ | ⟨b, _ | ⟨c, rest⟩⟩⟩ <;> simp_all [readNextCode]

/-- Witness for C4: a 4-byte stream leaves 1 byte unconsumed; a 2-byte
stream is reported closed. -/
theorem readNextCode_exactly_three_witness :
    (readNextCode ['0', '0', '1', 'x']).2 =
      (['0', '0', '1', 'x'] : List Char).drop 3 ∧
    (readNextCode ['a', 'b']).1 = .error .ConnectionClosed ∧
    (readNextCode ['a', 'b']).1 ≠ .error .InvalidCode :=
  ⟨readNextCode_exactly_three.1 ['0', '0', '1', 'x'] (by decide),
   (readNextCode_exactly_three.2 ['a', 'b'] (by decide)).1,
   (readNextCode_exactly_three.2 ['a', 'b'] (by decide)).2⟩

/-- C5: `ConnectionClosed` returns the loop to the accepting state, from
which a next client connects; `InvalidCode` continues the loop in the
active state; and after a disconnect a subsequent client's "001" command
is applied — no terminal state is reached. -/
theorem control_loop_recovers :
    (∀ (conn : List Char) (out : OutputState),
      (readNextCode conn).1 = .error .ConnectionClosed →
      step (.active conn out) .tick = .accepting out) ∧
    (∀ (out : OutputState) (bs : List Char),
      step (.accepting out) (.connect bs) = .active bs out) ∧
    (∀ (conn rest : List Char) (out : OutputState),
      readNextCode conn = (.error .InvalidCode, rest) →
      step (.active conn out) .tick = .active rest out) ∧
    (∀ (out : OutputState) (bs : List Char),
      step (step (.accepting out) (.connect ('0' :: '0' :: '1' :: bs))) .tick =
        .active bs (applyAction out .Accelerate)) := by
  refine ⟨?_, fun out bs => rfl, ?_, fun out bs => rfl⟩
  · intro conn out h
    rcases hr : readNextCode conn with ⟨e, r⟩
    rw [hr] at h
    simp at h
    subst h
    simp [step, hr]
  · intro conn rest out h
    simp [step, h]

/-- Witness for C5: disconnect on a 1-byte stream returns to accepting;
an invalid code "999" keeps the loop active. -/
theorem control_loop_recovers_witness :
    step (.active ['x'] initialOutput) .tick = .accepting initialOutput ∧
    step (.active ['9', '9', '8'] initialOutput) .tick =
      .active [] initialOutput :=
  ⟨control_loop_recovers.1 ['x'] initialOutput rfl,
   control_loop_recovers.2.2.1 ['9', '9', '8'] [] initialOutput rfl⟩

/-- C6: every reachable dispatcher state holds at most one active
connection, and a connect attempt while one connection is active leaves
the state — in particular the active session's byte stream — unchanged
(rejected, never merged). -/
theorem single_connection_invariant :
    (∀ (s : DispatchState) (e : Event), activeConns (step s e) ≤ 1) ∧
    (∀ (conn : List Char) (out : OutputState) (bs : List Char),
      step (.active conn out) (.connect bs) = .active conn out) := by
  constructor
  · intro s e
    rcases h : step s e with out | ⟨conn, out⟩ <;> simp [activeConns]
  · intro conn out bs
    rfl

/-- Witness for C6: a connect attempt during an active 1-byte session is
rejected without touching the session. -/
theorem single_connection_invariant_witness :
    step (.active ['a'] initialOutput) (.connect ['b']) =
      .active ['a'] initialOutput :=
  single_connection_invariant.2 ['a'] initialOutput ['b']

/-- The claim of two divergent configuration variants, as stated: two
source files that are both configuration variants, one defining the motor
pins and one lacking them.  Refuted: `secrets.example.h` declares no
configuration-surface constant, so the source holds only one
configuration variant. -/
theorem two_config_variants_refuted :
    ¬ ∃ f ∈ sourceFiles, ∃ g ∈ sourceFiles,
      isConfigVariant f = true ∧ isConfigVariant g = true ∧
      definesMotorPins f = true ∧ definesMotorPins g = false := by
  decide

/-- C8 (amended): the source contains exactly one configuration variant,
`config.h`, and it defines the motor-control pins; `secrets.example.h` is
a credentials template declaring no configuration-surface constant, so
the motorless configuration profile has no variant in the source. -/
theorem config_variant_unique :
    isConfigVariant config_h = true ∧ definesMotorPins config_h = true ∧
    isConfigVariant secrets_example_h = false ∧
    definesMotorPins secrets_example_h = false ∧
    ∀ f ∈ sourceFiles, isConfigVariant f = true → f = config_h := by
  decide

/-- Witness for C8's amended claim at the file `config.h` itself. -/
theorem config_variant_unique_witness : config_h = config_h :=
  config_variant_unique.2.2.2.2 config_h (by decide) (by decide)

/-- C9: the configuration is fixed at startup (`start` returns a state
holding exactly the configuration it was given, built from the `config.h`
constants) and is preserved by every system step (accepting a connection,
reading a code, applying an action); every declaration of `config.h`
carries the `const` qualifier. -/
theorem config_immutable :
    (∀ (cfg : Config) (pf : Bool) (s : SysState),
      start cfg pf = .ok s → s.cfg = cfg) ∧
    (∀ (s : SysState) (e : Event), (stepSys s e).cfg = s.cfg) ∧
    startupConfig = ⟨1234, 2, 16, 17, 4, 5, 115200⟩ ∧
    (∀ d ∈ config_h, d.isConst = true) := by
  refine ⟨?_, fun s e => rfl, rfl, by decide⟩
  intro cfg pf s h
  cases pf <;> simp [start] at h
  rw [← h]

/-- Witness for C9: starting with the `config.h` configuration on a free
port yields a state holding that configuration; the `TCP_PORT`
declaration is `const`. -/
theorem config_immutable_witness :
    (⟨startupConfig, .accepting initialOutput⟩ : SysState).cfg =
      startupConfig ∧
    (⟨true, "uint16_t", "TCP_PORT", "1234"⟩ : CDecl).isConst = true :=
  ⟨config_immutable.1 startupConfig true
      ⟨startupConfig, .accepting initialOutput⟩ rfl,
   config_immutable.2.2.2 ⟨true, "uint16_t", "TCP_PORT", "1234"⟩ (by decide)⟩

/-- C10: the five configured output pins are pairwise distinct, so no
action's pin writes command two different levels on one physical pin. -/
theorem pins_pairwise_distinct :
    outputPins.Pairwise (· ≠ ·) ∧
    ∀ (prev : OutputState) (a : Action) (p : Int) (l₁ l₂ : Bool),
      (p, l₁) ∈ pinWrites prev a → (p, l₂) ∈ pinWrites prev a → l₁ = l₂ := by
  constructor
  · decide
  · intro prev a p l₁ l₂ h₁ h₂
    simp [pinWrites, MOTOR_PIN_A, MOTOR_PIN_B, DIRECTION_PIN_LEFT,
      DIRECTION_PIN_RIGHT, LED_PIN] at h₁ h₂
    rcases h₁ with ⟨rfl, rfl⟩ | ⟨rfl, rfl⟩ | ⟨rfl, rfl⟩ | ⟨rfl, rfl⟩ | ⟨rfl, rfl⟩ <;>
      rcases h₂ with ⟨h, rfl⟩ | ⟨h, rfl⟩ | ⟨h, rfl⟩ | ⟨h, rfl⟩ | ⟨h, rfl⟩ <;>
      simp_all

/-- Witness for C10: the motor A pin written by Stop carries one level. -/
theorem pins_pairwise_distinct_witness : (false : Bool) = false :=
  pins_pairwise_distinct.2 initialOutput .Stop MOTOR_PIN_A false false
    (by decide) (by decide)

end HandController
